import Mathlib

/-
Verification of the Chatbot repository (SISTec-AI-System).

The development shallowly embeds the two Python source files:
  backend/app.py           (Flask handlers over a PostgreSQL store)
  agents/admission_agent.py (AI gateway with retry and backoff)

The database tables are embedded as Lean lists of rows; each Flask handler
becomes a pure function from the table state and the request data to the new
table state and the HTTP-level outcome.  Python-level dynamic behaviour that
the claims depend on (calling an async function without await, attribute
access on a coroutine object, exception handling) is embedded with an
explicit Python value type and an Except monad.
-/

/-! ## A small model of the Python values and exceptions that the agent
module manipulates. -/

/-- Python runtime values reachable in `admission_agent.get_ai_response`:
`None`, strings, JSON-style dicts and lists, and the coroutine object that
results from calling an `async def` function without `await`. -/
inductive PyVal where
  | pynone : PyVal
  | pystr (s : String) : PyVal
  | pydict (entries : List (String × PyVal)) : PyVal
  | pylist (xs : List PyVal) : PyVal
  | coroutine : PyVal

/-- The Python exceptions relevant to the agent module. -/
inductive PyExc where
  | attributeError : PyExc
  | indexError : PyExc
  | typeError : PyExc
  | httpError (code : Nat) : PyExc
  | otherError : PyExc

/-- Python `x is None`. -/
def pyIsNone : PyVal → Bool
  | PyVal.pynone => true
  | _ => false

/-- Python truthiness of a value (`if text_part:`). -/
def pyTruthy : PyVal → Bool
  | PyVal.pynone => false
  | PyVal.pystr s => !(s == "")
  | PyVal.pydict es => !es.isEmpty
  | PyVal.pylist xs => !xs.isEmpty
  | PyVal.coroutine => true

/-- Python `v.get(key, default)`.  Only dicts have a `get` attribute; on any
other value (in particular on a coroutine object) the attribute access
raises `AttributeError`. -/
def pyGet (v : PyVal) (key : String) (dflt : PyVal) : Except PyExc PyVal :=
  match v with
  | PyVal.pydict es =>
    Except.ok ((((es.find? (fun kv => kv.1 == key)).map (fun kv => kv.2))).getD dflt)
  | _ => Except.error PyExc.attributeError

/-- Python `v[i]` for a non-negative index: `IndexError` past the end of a
list, `TypeError` on a non-indexable value. -/
def pyIndex (v : PyVal) (i : Nat) : Except PyExc PyVal :=
  match v with
  | PyVal.pylist xs =>
    match xs[i]? with
    | some x => Except.ok x
    | none => Except.error PyExc.indexError
  | _ => Except.error PyExc.typeError

/-- The string carried by a JSON text value (the `text` field of a Gemini
candidate part is a JSON string whenever it is present). -/
def pyvalText : PyVal → String
  | PyVal.pystr s => s
  | _ => ""

/-! ## agents/admission_agent.py : `exponential_backoff_fetch`

The network is abstracted as a transport oracle giving the outcome of the
HTTP POST made on each attempt: a successful JSON body, an `HTTPError` with
a status code raised by `response.raise_for_status()`, or any other raised
exception (connection error, timeout, ...).  The `random.uniform(0, 1)`
jitter is abstracted as an oracle from the attempt number to a rational. -/

/-- Outcome of one `requests.post` + `raise_for_status()` round trip. -/
inductive FetchAttempt where
  | success (body : PyVal) : FetchAttempt
  | httpError (code : Nat) : FetchAttempt
  | exc : FetchAttempt

/-- What happened during one run of the fetch loop: the value returned
(`response.json()` or `None`), how many HTTP attempts were issued, and the
sequence of `time.sleep` delays in seconds. -/
structure FetchTrace where
  result : Option PyVal
  attempts : Nat
  sleeps : List ℚ

/-- One `requests.post` with `raise_for_status`, as an exception-monad
value consumed by the `try` block of the loop body. -/
def doRequest : FetchAttempt → Except PyExc PyVal
  | FetchAttempt.success body => Except.ok body
  | FetchAttempt.httpError code => Except.error (PyExc.httpError code)
  | FetchAttempt.exc => Except.error PyExc.otherError

/-- The `for attempt in range(max_retries)` loop of
`exponential_backoff_fetch`.  `fuel` is the number of loop iterations still
available, kept equal to `max_retries - attempt`.  The `except HTTPError`
arm retries (after sleeping `2 ** attempt + random.uniform(0, 1)`) exactly
when the status code is 429, 500 or 503 and `attempt < max_retries - 1`;
every other exception arm breaks out of the loop, and falling out of the
loop returns `None`. -/
def fetchGo (transport : Nat → FetchAttempt) (jitter : Nat → ℚ)
    (max_retries : Nat) : Nat → Nat → FetchTrace
  | _, 0 => ⟨none, 0, []⟩
  | attempt, fuel + 1 =>
    match doRequest (transport attempt) with
    | Except.ok body => ⟨some body, 1, []⟩
    | Except.error (PyExc.httpError code) =>
      if (code == 429 || code == 500 || code == 503)
          && decide (attempt < max_retries - 1) then
        let wait_time : ℚ := 2 ^ attempt + jitter attempt
        let rest := fetchGo transport jitter max_retries (attempt + 1) fuel
        ⟨rest.result, rest.attempts + 1, wait_time :: rest.sleeps⟩
      else ⟨none, 1, []⟩
    | Except.error _ => ⟨none, 1, []⟩

/-- `exponential_backoff_fetch(url, payload, max_retries)`: the loop is run
from attempt 0 with `max_retries` iterations available.  Every exception
raised inside the loop body is handled by one of the two `except` arms, so
the function itself never raises: its entire behaviour is the returned
`FetchTrace`. -/
def exponential_backoff_fetch (transport : Nat → FetchAttempt)
    (jitter : Nat → ℚ) (max_retries : Nat) : FetchTrace :=
  fetchGo transport jitter max_retries 0 max_retries

/-! ## agents/admission_agent.py : `get_ai_response` -/

/-- Calling an `async def` function without `await` does not run its body;
it merely allocates and returns a coroutine object. -/
def callAsyncNoAwait (_body : Unit → FetchTrace) : PyVal :=
  PyVal.coroutine

/-- Fallback returned when `exponential_backoff_fetch` yields `None`. -/
def fallbackNetwork : String :=
  "Sorry, I am currently unable to fetch an answer due to network or server issues. Your query has been forwarded to the Admin."

/-- Fallback returned when the response carries no text part. -/
def fallbackUnclear : String :=
  "I couldn\x27t generate a clear response. Your query might be too complex or unclear. Please try rephrasing."

/-- Fallback returned by the outer `except Exception` handler of
`get_ai_response`. -/
def fallbackFatal : String :=
  "AI system is currently unavailable. We have recorded your query and will have an admin respond soon."

/-- The `try:` block of `get_ai_response`.  The call
`exponential_backoff_fetch(API_URL, payload)` is an un-awaited call of an
async function, so `response_data` is bound to a coroutine object; the
subsequent `response_data.get('candidates', [{}])` attribute access then
raises `AttributeError`, which propagates out of the block. -/
def get_ai_response_try (transport : Nat → FetchAttempt) (jitter : Nat → ℚ)
    (_query_text : String) : Except PyExc String :=
  let response_data := callAsyncNoAwait
    (fun _ => exponential_backoff_fetch transport jitter 5)
  if pyIsNone response_data then
    Except.ok fallbackNetwork
  else
    match pyGet response_data "candidates" (PyVal.pylist [PyVal.pydict []]) with
    | Except.error e => Except.error e
    | Except.ok cands =>
      match pyIndex cands 0 with
      | Except.error e => Except.error e
      | Except.ok candidate =>
        match pyGet candidate "content" (PyVal.pydict []) with
        | Except.error e => Except.error e
        | Except.ok content =>
          match pyGet content "parts" (PyVal.pylist [PyVal.pydict []]) with
          | Except.error e => Except.error e
          | Except.ok parts =>
            match pyIndex parts 0 with
            | Except.error e => Except.error e
            | Except.ok part0 =>
              match pyGet part0 "text" PyVal.pynone with
              | Except.error e => Except.error e
              | Except.ok text_part =>
                if pyTruthy text_part then Except.ok (pyvalText text_part)
                else Except.ok fallbackUnclear

/-- `get_ai_response(query_text)`: the `try` block wrapped in the outer
`except Exception` handler, which converts any raised exception into the
fixed fatal fallback string.  The transport and jitter oracles are the
ambient network behaviour the (never executed) coroutine would see. -/
def get_ai_response (transport : Nat → FetchAttempt) (jitter : Nat → ℚ)
    (query_text : String) : String :=
  match get_ai_response_try transport jitter query_text with
  | Except.ok s => s
  | Except.error _ => fallbackFatal

/-! ## backend/app.py : the chat_history table and the string test used by
`chat_api` to classify the AI reply -/

/-- One row of the `chat_history` table (timestamps abstracted to naturals).
A freshly inserted row takes the defaults `response_text = NULL`,
`response_time = NULL`, `is_admin_response = FALSE`. -/
structure ChatRow where
  id : Nat
  user_id : Nat
  query_text : String
  query_time : Nat
  response_text : Option String
  response_time : Option Nat
  query_status : String
  is_admin_response : Bool
deriving DecidableEq

/-- Boolean test: the character list `needle` starts the character list
given as second argument. -/
def strStarts : List Char → List Char → Bool
  | [], _ => true
  | _ :: _, [] => false
  | c :: cs, d :: ds => c == d && strStarts cs ds

/-- Boolean test: the character list `needle` occurs contiguously inside
the second argument. -/
def strHas (needle : List Char) : List Char → Bool
  | [] => strStarts needle []
  | d :: ds => strStarts needle (d :: ds) || strHas needle ds

/-- Python `needle in hay` on strings: contiguous substring test. -/
def strContains (hay needle : String) : Bool :=
  strHas needle.toList hay.toList

/-- First sentinel substring `chat_api` looks for in the AI reply. -/
def sentinelFatal : String := "AI system is currently unavailable"

/-- Second sentinel substring `chat_api` looks for in the AI reply. -/
def sentinelNetwork : String := "Sorry, I am currently unable to fetch an answer"

/-- The fixed user-facing message stored and returned when the AI reply is
classified as a failure. -/
def forwardMsg : String :=
  "I couldn\x27t process this query due to an external service error. The query has been forwarded to the Admin team for manual review."

/-! ## backend/app.py : `chat_api` -/

/-- HTTP-level outcome of the `/api/chat` handler. -/
inductive ChatOut where
  | error (code : Nat) (msg : String) : ChatOut
  | success (response : String) (status : String) : ChatOut
deriving DecidableEq

/-- Step 1 of `chat_api`: `INSERT INTO chat_history (user_id, query_text,
query_status) VALUES (%s, %s, 'co') RETURNING id;` — the new row takes the
column defaults for the remaining fields. -/
def insertChat (db : List ChatRow) (uid : Nat) (query_text : String)
    (nid tq : Nat) : List ChatRow :=
  db ++ [⟨nid, uid, query_text, tq, none, none, "co", false⟩]

/-- Step 4 of `chat_api`: `UPDATE chat_history SET response_text = %s,
response_time = CURRENT_TIMESTAMP, query_status = %s WHERE id = %s;`. -/
def updateChat (db : List ChatRow) (cid : Nat) (resp status : String)
    (tr : Nat) : List ChatRow :=
  db.map (fun r =>
    if r.id == cid then
      { r with response_text := some resp, response_time := some tr,
               query_status := status }
    else r)

/-- The `/api/chat` handler body, given the current table, the session user
id, the `query` field of the JSON body (absent = `none`), the id the
`RETURNING id` of the insert will produce, the two statement timestamps,
and the `get_ai_response` function it calls. -/
def chat_api (db : List ChatRow) (uid : Nat) (query : Option String)
    (nid tq tr : Nat) (ai : String → String) : List ChatRow × ChatOut :=
  match query with
  | none => (db, ChatOut.error 400 "Query text is required")
  | some query_text =>
    if query_text == "" then (db, ChatOut.error 400 "Query text is required")
    else
      let db1 := insertChat db uid query_text nid tq
      let ai_response_text := ai query_text
      let failed := strContains ai_response_text sentinelFatal
        || strContains ai_response_text sentinelNetwork
      let status := if failed then "pending" else "answered"
      let response_to_user := if failed then forwardMsg else ai_response_text
      let db2 := updateChat db1 nid response_to_user status tr
      (db2, ChatOut.success response_to_user status)

/-! ## backend/app.py : `admin_answer_query` -/

/-- HTTP-level outcome of the `/api/admin/answer_query` handler. -/
inductive AdminOut where
  | error (code : Nat) (msg : String) : AdminOut
  | ok (code : Nat) (msg : String) : AdminOut
deriving DecidableEq

/-- The `WHERE id = %s AND query_status = 'pending'` condition of the
conditional update. -/
def rowMatchesPending (cid : Nat) (r : ChatRow) : Bool :=
  r.id == cid && r.query_status == "pending"

/-- The `/api/admin/answer_query` handler body.  `chat_id` and `response`
come from the JSON body (absent = `none`); `if not all([chat_id,
admin_response])` rejects a missing or falsy field with 400.  The update is
a single conditional `UPDATE ... WHERE id = %s AND query_status =
'pending'`; a zero affected-row count (`cursor.rowcount == 0`) rolls back
and answers 404, leaving the table unchanged. -/
def admin_answer_query (db : List ChatRow) (chat_id : Option Nat)
    (response : Option String) (now : Nat) : List ChatRow × AdminOut :=
  match chat_id, response with
  | some cid, some resp =>
    if cid == 0 || resp == "" then
      (db, AdminOut.error 400 "Chat ID and response are required")
    else
      let updated := db.map (fun r =>
        if rowMatchesPending cid r then
          { r with response_text := some resp, response_time := some now,
                   query_status := "answered", is_admin_response := true }
        else r)
      let rowcount := db.countP (rowMatchesPending cid)
      if rowcount == 0 then
        (db, AdminOut.error 404 "Query not found or already answered.")
      else (updated, AdminOut.ok 200 "Query answered successfully.")
  | _, _ => (db, AdminOut.error 400 "Chat ID and response are required")

/-! ## backend/app.py : `get_chat_history` -/

/-- The `ORDER BY query_time ASC` ordering of the history query. -/
def timeLE (a b : ChatRow) : Prop :=
  a.query_time ≤ b.query_time

instance : DecidableRel timeLE :=
  fun a b => inferInstanceAs (Decidable (a.query_time ≤ b.query_time))

instance : IsTotal ChatRow timeLE :=
  ⟨fun a b => Nat.le_total a.query_time b.query_time⟩

instance : IsTrans ChatRow timeLE :=
  ⟨fun _ _ _ hab hbc => Nat.le_trans hab hbc⟩

/-- The `/api/chat_history` handler body: `SELECT ... FROM chat_history
WHERE user_id = %s ORDER BY query_time ASC;`. -/
def get_chat_history (db : List ChatRow) (uid : Nat) : List ChatRow :=
  List.insertionSort timeLE (db.filter (fun r => r.user_id == uid))

/-! ## backend/app.py : the users table and the two login handlers -/

/-- One row of the `users` table. -/
structure UserRow where
  id : Nat
  full_name : String
  email : String
  password_hash : String
  user_role : String
deriving DecidableEq

/-- HTTP-level outcome of a login handler. -/
inductive LoginOut where
  | success (code : Nat) (message redirect_url : String) : LoginOut
  | failure (code : Nat) (message : String) : LoginOut
deriving DecidableEq

/-- The single 401 message both login handlers use for every failed
attempt. -/
def invalidCredsMsg : String := "Invalid email or password."

/-- The `/login` POST handler body: select the student row by email, then
`if user and check_password_hash(user[2], password)`.  The password-hash
verifier is abstracted as `check`. -/
def student_login (users : List UserRow)
    (check : String → String → Bool) (email password : String) : LoginOut :=
  match users.find? (fun u => u.email == email && u.user_role == "student") with
  | some u =>
    if check u.password_hash password then
      LoginOut.success 200 "Login successful." "student_dashboard"
    else LoginOut.failure 401 invalidCredsMsg
  | none => LoginOut.failure 401 invalidCredsMsg

/-- The `/admin_login` POST handler body, same shape with role `admin`. -/
def admin_login (users : List UserRow)
    (check : String → String → Bool) (email password : String) : LoginOut :=
  match users.find? (fun u => u.email == email && u.user_role == "admin") with
  | some u =>
    if check u.password_hash password then
      LoginOut.success 200 "Admin Login successful." "admin_dashboard"
    else LoginOut.failure 401 invalidCredsMsg
  | none => LoginOut.failure 401 invalidCredsMsg

/-! ## backend/app.py : the route-guard decorators -/

/-- The Flask session dict, restricted to the two keys the guards read:
`user_id` (absent = `none`) and `user_role` (`session.get` returns `None`
when absent). -/
structure PySession where
  user_id : Option Nat
  user_role : Option String
deriving DecidableEq

/-- Outcome of a guarded route: either a redirect issued by the decorator,
or the wrapped handler response. -/
inductive Routed (α : Type) where
  | redirect (target : String) : Routed α
  | handled (response : α) : Routed α
deriving DecidableEq

/-- The `login_required` decorator: `if 'user_id' not in session or
session.get('user_role') != 'student': return redirect(url_for(
'student_login'))`, otherwise run the wrapped handler. -/
def login_required {α : Type} (handler : Unit → α) (s : PySession) : Routed α :=
  if s.user_id = none ∨ s.user_role ≠ some "student" then
    Routed.redirect "student_login"
  else Routed.handled (handler ())

/-- The `admin_required` decorator, same shape with role `admin` and
redirect target `admin_login`. -/
def admin_required {α : Type} (handler : Unit → α) (s : PySession) : Routed α :=
  if s.user_id = none ∨ s.user_role ≠ some "admin" then
    Routed.redirect "admin_login"
  else Routed.handled (handler ())

/-! ## Remaining definitions used by the theorems -/

/-- One direction of the spec invariant on query rows: an answered row
carries a non-null `response_text`. -/
def answeredNonNull (r : ChatRow) : Prop :=
  r.query_status = "answered" → r.response_text ≠ none

/-- A genuine AI answer that happens to contain the first sentinel
substring `chat_api` tests for. -/
def ansWithSentinel : String :=
  "Haan, kabhi kabhi AI system is currently unavailable hota hai, tab admin team help karti hai."

/-- A table with one already-answered row, for the admin-resolve witness. -/
def exAnsweredRow : ChatRow := ⟨1, 1, "q", 0, some "a", some 1, "answered", true⟩

/-- A two-row history for user 1: row 1 at time 5 is older, row 2 at time 9
is newer. -/
def exdb : List ChatRow :=
  [⟨1, 1, "a", 5, none, none, "co", false⟩, ⟨2, 1, "b", 9, none, none, "co", false⟩]

/-! ## Helper lemmas -/

lemma map_id_on {α : Type} (f : α → α) (l : List α)
    (h : ∀ a ∈ l, f a = a) : l.map f = l := by
  induction l with
  | nil => rfl
  | cons x xs ih =>
    simp only [List.map_cons, h x (by simp)]
    rw [ih (fun a ha => h a (by simp [ha]))]

lemma updateChat_append_fresh (db : List ChatRow) (row : ChatRow)
    (resp status : String) (tr : Nat) (hfresh : ∀ r ∈ db, r.id ≠ row.id) :
    updateChat (db ++ [row]) row.id resp status tr =
      db ++ [{ row with response_text := some resp, response_time := some tr,
                        query_status := status }] := by
  unfold updateChat
  rw [List.map_append]
  congr 1
  · apply map_id_on
    intro a ha
    have hne : (a.id == row.id) = false := beq_eq_false_iff_ne.mpr (hfresh a ha)
    simp [hne]
  · simp

lemma chat_api_run (db : List ChatRow) (uid : Nat) (q t : String)
    (nid tq tr : Nat) (hq : (q == "") = false)
    (hfresh : ∀ r ∈ db, r.id ≠ nid) :
    chat_api db uid (some q) nid tq tr (fun _ => t) =
      (db ++ [⟨nid, uid, q, tq,
        some (if strContains t sentinelFatal || strContains t sentinelNetwork
          then forwardMsg else t),
        some tr,
        (if strContains t sentinelFatal || strContains t sentinelNetwork
          then "pending" else "answered"),
        false⟩],
       ChatOut.success
        (if strContains t sentinelFatal || strContains t sentinelNetwork
          then forwardMsg else t)
        (if strContains t sentinelFatal || strContains t sentinelNetwork
          then "pending" else "answered")) := by
  have hne : ¬ ((q == "") = true) := by simp [hq]
  simp only [chat_api]
  rw [if_neg hne]
  show (updateChat (insertChat db uid q nid tq) nid _ _ tr, _) = _
  unfold insertChat
  rw [updateChat_append_fresh db ⟨nid, uid, q, tq, none, none, "co", false⟩ _ _ tr hfresh]

/-! ## Claim theorems -/

/-- Claim C2: for every input string and every behaviour of the network,
`get_ai_response` returns the fixed fallback string "AI system is currently
unavailable. ...": the async helper is invoked without await, so the
`try` block raises `AttributeError` at the `.get` access on the coroutine
object and the `except` branch returns the fallback — no network answer is
ever returned. -/
theorem gateway_always_fallback (transport : Nat → FetchAttempt)
    (jitter : Nat → ℚ) (query_text : String) :
    get_ai_response_try transport jitter query_text =
      Except.error PyExc.attributeError ∧
    get_ai_response transport jitter query_text = fallbackFatal :=
  ⟨rfl, rfl⟩

/-- Claim C5: for every input and every behaviour of the transport
(including one that always answers HTTP 500), `get_ai_response` never
propagates an exception: it returns a fallback string, and the fetch loop
given an always-500 transport exhausts the 5-attempt budget and hands back
`None` rather than raising. -/
theorem gateway_never_raises (transport : Nat → FetchAttempt)
    (jitter : Nat → ℚ) (query_text : String) :
    get_ai_response transport jitter query_text = fallbackFatal ∧
    (exponential_backoff_fetch (fun _ => FetchAttempt.httpError 500) jitter 5).result = none ∧
    (exponential_backoff_fetch (fun _ => FetchAttempt.httpError 500) jitter 5).attempts = 5 :=
  ⟨rfl, rfl, rfl⟩

/-- Claim C4, amended: the fetch loop retries only on HTTP status 429, 500
or 503 — not on 502 and not on transport errors or timeouts, which abort
after the first attempt — up to the fixed maximum of 5 attempts, sleeping
`2 ^ attempt + uniform_random(0, 1s)` (base 1 second) between attempts; on
any other HTTP error it stops retrying. -/
theorem backoff_retry_policy (jitter : Nat → ℚ) (code : Nat) :
    ((code = 429 ∨ code = 500 ∨ code = 503) →
      exponential_backoff_fetch (fun _ => FetchAttempt.httpError code) jitter 5 =
        ⟨none, 5, [2 ^ 0 + jitter 0, 2 ^ 1 + jitter 1,
                   2 ^ 2 + jitter 2, 2 ^ 3 + jitter 3]⟩) ∧
    ((code ≠ 429 ∧ code ≠ 500 ∧ code ≠ 503) →
      exponential_backoff_fetch (fun _ => FetchAttempt.httpError code) jitter 5 =
        ⟨none, 1, []⟩) ∧
    exponential_backoff_fetch (fun _ => FetchAttempt.exc) jitter 5 =
      ⟨none, 1, []⟩ := by
  refine ⟨?_, ?_, rfl⟩
  · rintro (rfl | rfl | rfl) <;> rfl
  · rintro ⟨h1, h2, h3⟩
    have b1 : (code == 429) = false := beq_eq_false_iff_ne.mpr h1
    have b2 : (code == 500) = false := beq_eq_false_iff_ne.mpr h2
    have b3 : (code == 503) = false := beq_eq_false_iff_ne.mpr h3
    simp [exponential_backoff_fetch, fetchGo, doRequest, b1, b2, b3]

/-- Witness for C4: at status 429 and zero jitter the loop makes all 5
attempts and sleeps 1, 2, 4 and 8 seconds. -/
theorem backoff_retry_policy_w :
    exponential_backoff_fetch (fun _ => FetchAttempt.httpError 429) (fun _ => 0) 5 =
      ⟨none, 5, [1, 2, 4, 8]⟩ := by
  have h := (backoff_retry_policy (fun _ => 0) 429).1 (Or.inl rfl)
  simpa using h

/-- Counterexample for C4 as stated: a transport that always answers HTTP
502 is not retried — the loop stops after a single attempt with no backoff
sleep. -/
theorem backoff_502_no_retry :
    (exponential_backoff_fetch (fun _ => FetchAttempt.httpError 502)
      (fun _ => 0) 5).attempts = 1 ∧
    (exponential_backoff_fetch (fun _ => FetchAttempt.httpError 502)
      (fun _ => 0) 5).sleeps = [] :=
  ⟨rfl, rfl⟩

/-- Claim C7, amended: every appended question creates a ledger row whose
initial status is `co` (the "checking by AI" state), with null
`response_text` and `is_admin_response = FALSE`; the status only later
becomes `pending` or `answered`. -/
theorem append_initial_status_co (db : List ChatRow) (uid : Nat)
    (query_text : String) (nid tq : Nat) :
    ∃ r, (insertChat db uid query_text nid tq).getLast? = some r ∧
      r.query_status = "co" ∧ r.response_text = none ∧
      r.is_admin_response = false ∧ r.user_id = uid ∧
      r.query_text = query_text :=
  ⟨⟨nid, uid, query_text, tq, none, none, "co", false⟩,
    List.getLast?_concat _, rfl, rfl, rfl, rfl, rfl⟩

/-- Counterexample for C7 as stated: the row created for a fresh question
carries status `co`, not `pending`. -/
theorem append_status_not_pending_cex :
    ((insertChat [] 1 "eligibility" 1 0).map (fun r => r.query_status)) = ["co"] ∧
    ("co" : String) ≠ "pending" := by
  constructor
  · rfl
  · decide

/-- Claim C1, amended: for every student query whose AI Gateway call
returns an answer text that does not contain either of the two
failure-sentinel substrings the handler tests for, `chat_api` resolves the
ledger row to status `answered` with a non-admin (AI) answer, and the
response body is exactly the answer text with status `answered`. -/
theorem chat_answered_on_answer_text (db : List ChatRow) (uid : Nat)
    (q t : String) (nid tq tr : Nat) (hq : (q == "") = false)
    (hfresh : ∀ r ∈ db, r.id ≠ nid)
    (h1 : strContains t sentinelFatal = false)
    (h2 : strContains t sentinelNetwork = false) :
    chat_api db uid (some q) nid tq tr (fun _ => t) =
      (db ++ [⟨nid, uid, q, tq, some t, some tr, "answered", false⟩],
       ChatOut.success t "answered") := by
  rw [chat_api_run db uid q t nid tq tr hq hfresh]
  simp [h1, h2]

/-- Witness for C1: the end-to-end example of the spec, with the gateway
stubbed to answer "Minimum eligibility is 60%". -/
theorem chat_answered_on_answer_text_w :
    chat_api [] 1 (some "eligibility") 1 0 1
        (fun _ => "Minimum eligibility is 60%") =
      ([⟨1, 1, "eligibility", 0, some "Minimum eligibility is 60%", some 1,
          "answered", false⟩],
       ChatOut.success "Minimum eligibility is 60%" "answered") :=
  chat_answered_on_answer_text [] 1 "eligibility" "Minimum eligibility is 60%"
    1 0 1 rfl (by simp) (by decide) (by decide)

/-- Counterexample for C1 as stated: an AI answer that merely mentions the
sentinel phrase "AI system is currently unavailable" is misclassified as a
failure — the handler responds with the fixed forwarded-to-admin message
and status `pending`, not with the answer text and status `answered`. -/
theorem chat_answer_sentinel_cex :
    (chat_api [] 1 (some "Is the AI available") 1 0 1
        (fun _ => ansWithSentinel)).2 =
      ChatOut.success forwardMsg "pending" ∧
    ChatOut.success forwardMsg "pending" ≠
      ChatOut.success ansWithSentinel "answered" := by
  constructor
  · rfl
  · decide

/-- Claim C3, amended: `answer_text` non-null follows from `status =
answered` and is preserved by the handlers, but the converse fails: a row
left in status `pending` after an AI failure stores the fixed
forwarded-to-admin message, a non-null `answer_text`. -/
theorem answer_nonnull_amended (db : List ChatRow) (uid : Nat) (q t : String)
    (nid tq tr : Nat) (hq : (q == "") = false)
    (hfresh : ∀ r ∈ db, r.id ≠ nid)
    (hinv : ∀ r ∈ db, answeredNonNull r) :
    (∀ r ∈ (chat_api db uid (some q) nid tq tr (fun _ => t)).1,
      answeredNonNull r) ∧
    (strContains t sentinelFatal = true →
      (chat_api db uid (some q) nid tq tr (fun _ => t)).1 =
        db ++ [⟨nid, uid, q, tq, some forwardMsg, some tr, "pending", false⟩]) := by
  rw [chat_api_run db uid q t nid tq tr hq hfresh]
  constructor
  · intro r hr
    rcases List.mem_append.mp hr with h | h
    · exact hinv r h
    · rcases List.mem_singleton.mp h with rfl
      intro _
      simp
  · intro hf
    simp [hf]

/-- Witness for C3: a run of `chat_api` in which the gateway answers with
its fatal fallback leaves the row pending with the stored forward
message. -/
theorem answer_nonnull_amended_w :
    (chat_api [] 1 (some "x") 1 0 1 (fun _ => fallbackFatal)).1 =
      [⟨1, 1, "x", 0, some forwardMsg, some 1, "pending", false⟩] := by
  have h := answer_nonnull_amended [] 1 "x" fallbackFatal 1 0 1 rfl
    (by simp) (by simp)
  simpa using h.2 (by decide)

/-- Counterexample for C3 as stated: after an AI failure the pending row
has `response_text = some forwardMsg`, which is not null. -/
theorem pending_nonnull_cex :
    ((chat_api [] 1 (some "q") 1 0 1 (fun _ => fallbackFatal)).1.map
        (fun r => (r.query_status, r.response_text))) =
      [("pending", some forwardMsg)] ∧
    some forwardMsg ≠ (none : Option String) := by
  constructor
  · rfl
  · simp

/-- Claim C6: for every query id with no row in status `pending` (id absent
or row already answered), the admin resolve is decided by the single
conditional update, whose affected-row count is zero; the handler answers
404 and leaves the table completely unchanged. -/
theorem admin_resolve_rejects_nonpending (db : List ChatRow) (cid : Nat)
    (resp : String) (now : Nat) (hc : cid ≠ 0) (hr : resp ≠ "")
    (h : ∀ r ∈ db, ¬ (r.id = cid ∧ r.query_status = "pending")) :
    db.countP (rowMatchesPending cid) = 0 ∧
    admin_answer_query db (some cid) (some resp) now =
      (db, AdminOut.error 404 "Query not found or already answered.") := by
  have hcount : db.countP (rowMatchesPending cid) = 0 := by
    refine List.countP_eq_zero.mpr (fun r hrow => ?_)
    simp only [rowMatchesPending, Bool.and_eq_true, beq_iff_eq]
    exact h r hrow
  refine ⟨hcount, ?_⟩
  have h0 : (cid == 0) = false := beq_eq_false_iff_ne.mpr hc
  have h1 : (resp == "") = false := beq_eq_false_iff_ne.mpr hr
  simp [admin_answer_query, h0, h1, hcount]

/-- Witness for C6: a second resolve of an already answered row is rejected
with 404 and the table is unchanged. -/
theorem admin_resolve_rejects_nonpending_w :
    [exAnsweredRow].countP (rowMatchesPending 1) = 0 ∧
    admin_answer_query [exAnsweredRow] (some 1) (some "x") 2 =
      ([exAnsweredRow], AdminOut.error 404 "Query not found or already answered.") :=
  admin_resolve_rejects_nonpending [exAnsweredRow] 1 "x" 2
    (by decide) (by decide) (by decide)

/-- Claim C8, amended: `get_chat_history` returns exactly the rows of the
requesting user, as a finite sequence ordered oldest-first (ascending
`query_time`), not newest-first. -/
theorem history_oldest_first (db : List ChatRow) (uid : Nat) :
    List.Perm (get_chat_history db uid) (db.filter (fun r => r.user_id == uid)) ∧
    List.Sorted timeLE (get_chat_history db uid) :=
  ⟨List.perm_insertionSort timeLE _, List.sorted_insertionSort timeLE _⟩

/-- Counterexample for C8 as stated: with an older row (time 5) and a newer
row (time 9) the handler returns the older row first, not the newest
first. -/
theorem history_order_cex :
    ((get_chat_history exdb 1).map (fun r => r.id)) = [1, 2] ∧
    ((get_chat_history exdb 1).map (fun r => r.id)) ≠ [2, 1] := by
  constructor
  · rfl
  · decide

/-- Claim C9: every failing login attempt — unknown email or wrong
password — gets the identical 401 response `Invalid email or password.`
from both the student and the admin handler, so the two failure causes are
indistinguishable to the client. -/
theorem login_failure_uniform (users : List UserRow)
    (check : String → String → Bool) (email password : String) :
    ((∀ u, users.find? (fun v => v.email == email && v.user_role == "student") = some u →
        check u.password_hash password = false) →
      student_login users check email password =
        LoginOut.failure 401 invalidCredsMsg) ∧
    ((∀ u, users.find? (fun v => v.email == email && v.user_role == "admin") = some u →
        check u.password_hash password = false) →
      admin_login users check email password =
        LoginOut.failure 401 invalidCredsMsg) := by
  constructor
  · intro hfail
    unfold student_login
    cases hfind : users.find? (fun v => v.email == email && v.user_role == "student") with
    | none => rfl
    | some u => simp [hfail u hfind]
  · intro hfail
    unfold admin_login
    cases hfind : users.find? (fun v => v.email == email && v.user_role == "admin") with
    | none => rfl
    | some u => simp [hfail u hfind]

/-- Witness for C9: on an empty user table both handlers answer the same
401 failure. -/
theorem login_failure_uniform_w :
    student_login [] (fun _ _ => false) "a@b.c" "pw" =
      LoginOut.failure 401 invalidCredsMsg ∧
    admin_login [] (fun _ _ => false) "a@b.c" "pw" =
      LoginOut.failure 401 invalidCredsMsg :=
  ⟨(login_failure_uniform [] (fun _ _ => false) "a@b.c" "pw").1
      (fun _u h => Option.noConfusion h),
   (login_failure_uniform [] (fun _ _ => false) "a@b.c" "pw").2
      (fun _u h => Option.noConfusion h)⟩

/-- Claim C10: a request without a session user id, or with a session role
different from the required one, never reaches the guarded handler body:
the decorator answers a redirect to the matching login entry point, for
every possible handler. -/
theorem guard_blocks_unauthorized {α : Type} (f g : Unit → α) (s : PySession) :
    ((s.user_id = none ∨ s.user_role ≠ some "student") →
      login_required f s = Routed.redirect "student_login" ∧
      login_required f s = login_required g s) ∧
    ((s.user_id = none ∨ s.user_role ≠ some "admin") →
      admin_required f s = Routed.redirect "admin_login" ∧
      admin_required f s = admin_required g s) := by
  constructor
  · intro h
    unfold login_required
    rw [if_pos h, if_pos h]
    exact ⟨rfl, rfl⟩
  · intro h
    unfold admin_required
    rw [if_pos h, if_pos h]
    exact ⟨rfl, rfl⟩

/-- Witness for C10: the empty session is redirected by both guards, for
two different handlers. -/
theorem guard_blocks_unauthorized_w :
    (login_required (fun _ => (0 : Nat)) ⟨none, none⟩ =
        Routed.redirect "student_login" ∧
      login_required (fun _ => (0 : Nat)) ⟨none, none⟩ =
        login_required (fun _ => (1 : Nat)) ⟨none, none⟩) ∧
    (admin_required (fun _ => (0 : Nat)) ⟨none, none⟩ =
        Routed.redirect "admin_login" ∧
      admin_required (fun _ => (0 : Nat)) ⟨none, none⟩ =
        admin_required (fun _ => (1 : Nat)) ⟨none, none⟩) :=
  ⟨(guard_blocks_unauthorized (fun _ => (0 : Nat)) (fun _ => 1) ⟨none, none⟩).1
      (Or.inl rfl),
   (guard_blocks_unauthorized (fun _ => (0 : Nat)) (fun _ => 1) ⟨none, none⟩).2
      (Or.inl rfl)⟩
